import Mathlib

/-!
Verification of the OpenClaw gateway session-key subsystem.

JavaScript strings are modelled as `List Char` (`Str`): `String.prototype.trim`
becomes dropping whitespace from both ends, `String.prototype.toLowerCase`
becomes `List.map Char.toLower`, `undefined`/`null` become `Option.none`, and
JS string truthiness becomes a non-emptiness test.  All definitions are
computable, so concrete runs can be checked with `decide`.
-/

namespace OpenClaw

/-- JS strings, modelled as lists of characters. -/
abbrev Str := List Char

/-- `String.prototype.toLowerCase`, modelled characterwise. -/
def lowerStr (s : Str) : Str := s.map Char.toLower

/-- `String.prototype.trim`: drop whitespace from the left end, then from the
right end. -/
def trimStr (s : Str) : Str :=
  List.rdropWhile Char.isWhitespace (s.dropWhile Char.isWhitespace)

/-- `SessionDefaultsSnapshot` from `session-defaults.ts`: all four fields are
optional strings. -/
structure SessionDefaultsSnapshot where
  defaultAgentId : Option Str := none
  mainKey : Option Str := none
  mainSessionKey : Option Str := none
  scope : Option Str := none
deriving DecidableEq

/-- `normalizeScope` from `session-defaults.ts`: `(scope ?? "").trim().toLowerCase()`. -/
def normalizeScope (scope : Option Str) : Str :=
  lowerStr (trimStr (scope.getD []))

/-- Modelled from the spec: `normalizeAgentId` lives in
`src/routing/session-key.ts`, which is not among the sampled sources.  Per the
spec (§6) it returns a non-empty canonical identifier, applying a default when
the input is absent or blank; canonicalization is modelled as trim plus
lowercase, and the default identifier is modelled as `"main"` (its exact
spelling is not pinned by the spec and no claim depends on it). -/
def normalizeAgentId (raw : Option Str) : Str :=
  if lowerStr (trimStr (raw.getD [])) = [] then "main".data
  else lowerStr (trimStr (raw.getD []))

/-- Modelled from the spec: `normalizeMainKey` lives in
`src/routing/session-key.ts`, which is not among the sampled sources.  Per the
spec (§6) it returns a non-empty canonical key and defaults to `"main"` when
the input is absent or blank; canonicalization is modelled as trim plus
lowercase. -/
def normalizeMainKey (raw : Option Str) : Str :=
  if lowerStr (trimStr (raw.getD [])) = [] then "main".data
  else lowerStr (trimStr (raw.getD []))

/-- `resolveSnapshotMainSessionKey` from `session-defaults.ts`, parameterized by
the two normalization collaborators.  `defaults.mainSessionKey?.trim()`
followed by a truthiness test is modelled as trimming the defaulted field and
testing non-emptiness. -/
def resolveSnapshotMainSessionKeyWith (normA normM : Option Str → Str)
    (defaults : Option SessionDefaultsSnapshot) : Option Str :=
  match defaults with
  | none => none
  | some d =>
    let explicitMainSessionKey := trimStr (d.mainSessionKey.getD [])
    if explicitMainSessionKey ≠ [] then
      some explicitMainSessionKey
    else if normalizeScope d.scope = "global".data then
      some "global".data
    else
      some ("agent:".data ++ normA d.defaultAgentId ++ ":".data ++ normM d.mainKey)

/-- `resolveSnapshotMainSessionKey` with the imported collaborators plugged in. -/
def resolveSnapshotMainSessionKey : Option SessionDefaultsSnapshot → Option Str :=
  resolveSnapshotMainSessionKeyWith normalizeAgentId normalizeMainKey

/-- The tail of `isMainSessionAlias` after the canonical key has been resolved
and the value lowercased: exact match, the global-only rule, then the fallback
aliases. -/
def mainSessionAliasTail (normA normM : Option Str → Str)
    (defaults : Option SessionDefaultsSnapshot)
    (normalizedRaw normalizedResolved : Str) : Bool :=
  if normalizedRaw = normalizedResolved then
    true
  else if normalizedResolved = "global".data then
    decide (normalizedRaw = "global".data)
  else
    let agentId := normA (defaults.bind fun d => d.defaultAgentId)
    let mainKey := normM (defaults.bind fun d => d.mainKey)
    (decide (normalizedRaw = "main".data) ||
     decide (normalizedRaw = mainKey) ||
     decide (normalizedRaw = "agent:".data ++ agentId ++ ":main".data) ||
     decide (normalizedRaw = "agent:".data ++ agentId ++ ":".data ++ mainKey))

/-- `isMainSessionAlias` from `session-defaults.ts`, parameterized by the two
normalization collaborators. -/
def isMainSessionAliasWith (normA normM : Option Str → Str)
    (value : Option Str) (defaults : Option SessionDefaultsSnapshot) : Bool :=
  let raw := trimStr (value.getD [])
  if raw = [] then
    false
  else
    match resolveSnapshotMainSessionKeyWith normA normM defaults with
    | none => false
    | some resolvedMainSessionKey =>
      mainSessionAliasTail normA normM defaults (lowerStr raw) (lowerStr resolvedMainSessionKey)

/-- `isMainSessionAlias` with the imported collaborators plugged in. -/
def isMainSessionAlias (value : Option Str) (defaults : Option SessionDefaultsSnapshot) : Bool :=
  isMainSessionAliasWith normalizeAgentId normalizeMainKey value defaults

/-!
### The reconnect orchestrator

`connectGateway` lives in `app-gateway.ts`, which is not among the sampled
sources (only its test file is); the definitions below are therefore modelled
from the spec (§4.2, §4.3, §6) and checked against the behaviour pinned down by
`app-gateway.node.test.ts`.
-/

/-- Event envelopes (`{ event, payload?, seq? }`); the opaque `payload` is
modelled as an optional string. -/
structure EventEnvelope where
  event : Str
  payload : Option Str := none
  seq : Option Nat := none
deriving DecidableEq

/-- The settings fields mirrored by the hello handler. -/
structure HostSettings where
  sessionKey : Str
  lastActiveSessionKey : Str
deriving DecidableEq

/-- The mutable host record (spec §3 Host State). -/
structure Host where
  connected : Bool
  lastError : Option Str
  sessionKey : Str
  eventLogBuffer : List EventEnvelope
  settings : HostSettings
deriving DecidableEq

/-- The handshake snapshot carried by a hello message. -/
structure HelloSnapshot where
  sessionDefaults : Option SessionDefaultsSnapshot := none
deriving DecidableEq

/-- The hello handshake message. -/
structure HelloMessage where
  snapshot : Option HelloSnapshot := none
deriving DecidableEq

/-- Host state plus the connection-generation counter owned by the
orchestrator. -/
structure GatewayConn where
  host : Host
  currentGeneration : Nat
deriving DecidableEq

/-- Modelled from the spec: `connectGateway` (`connect`, spec §4.2) from
`app-gateway.ts`, which is not among the sampled sources.  It increments
`currentGeneration` and constructs a transport client whose callbacks capture
the new value; `stop()`/`start()` on the transport are external collaborators
with no effect on the host record.  Returns the new state together with the
generation captured by the freshly constructed client. -/
def connectGateway (st : GatewayConn) : GatewayConn × Nat :=
  ({ st with currentGeneration := st.currentGeneration + 1 }, st.currentGeneration + 1)

/-- Modelled from the spec: the `onHello` mutation (spec §4.2), using the real
resolver from `session-defaults.ts`.  Downstream loaders are fire-and-forget
external collaborators and do not touch the fields modelled here. -/
def applyHello (host : Host) (hello : HelloMessage) : Host :=
  let host1 := { host with connected := true }
  match hello.snapshot.bind (fun s => s.sessionDefaults) with
  | none => host1
  | some d =>
    match resolveSnapshotMainSessionKey (some d) with
    | none => host1
    | some k =>
      if k ≠ host1.sessionKey then
        { host1 with
            sessionKey := k,
            settings := { host1.settings with
                            sessionKey := k, lastActiveSessionKey := k } }
      else host1

/-- The user-visible gap string (spec §6):
`"event gap detected (expected seq {expected}, got {received}); refresh recommended"`. -/
def gapMessage (expected received : Nat) : Str :=
  "event gap detected (expected seq ".data ++ (Nat.repr expected).data ++
    ", got ".data ++ (Nat.repr received).data ++ "); refresh recommended".data

/-- The user-visible close string (spec §6): `"disconnected ({code}): {reason}"`
with `reason` substituted by `"no reason"` when empty. -/
def closeMessage (code : Nat) (reason : Str) : Str :=
  "disconnected (".data ++ (Nat.repr code).data ++ "): ".data ++
    (if reason = [] then "no reason".data else reason)

/-- Modelled from the spec: the `onClose` mutation (spec §4.2). -/
def applyClose (host : Host) (code : Nat) (reason : Str) : Host :=
  { host with lastError := some (closeMessage code reason) }

/-- Modelled from the spec: the `onGap` mutation (spec §4.2). -/
def applyGap (host : Host) (expected received : Nat) : Host :=
  { host with lastError := some (gapMessage expected received) }

/-- Modelled from the spec: the `onEvent` mutation (spec §4.2): append to the
event-log buffer in arrival order. -/
def applyEvent (host : Host) (evt : EventEnvelope) : Host :=
  { host with eventLogBuffer := host.eventLogBuffer ++ [evt] }

/-- Modelled from the spec: a delivered `onHello` callback first compares its
captured generation against the live counter and returns without touching the
host on a mismatch. -/
def fireHello (st : GatewayConn) (myGeneration : Nat) (hello : HelloMessage) : GatewayConn :=
  if myGeneration = st.currentGeneration then
    { st with host := applyHello st.host hello }
  else st

/-- Modelled from the spec: generation-checked `onClose` delivery. -/
def fireClose (st : GatewayConn) (myGeneration : Nat) (code : Nat) (reason : Str) : GatewayConn :=
  if myGeneration = st.currentGeneration then
    { st with host := applyClose st.host code reason }
  else st

/-- Modelled from the spec: generation-checked `onGap` delivery. -/
def fireGap (st : GatewayConn) (myGeneration : Nat) (expected received : Nat) : GatewayConn :=
  if myGeneration = st.currentGeneration then
    { st with host := applyGap st.host expected received }
  else st

/-- Modelled from the spec: generation-checked `onEvent` delivery. -/
def fireEvent (st : GatewayConn) (myGeneration : Nat) (evt : EventEnvelope) : GatewayConn :=
  if myGeneration = st.currentGeneration then
    { st with host := applyEvent st.host evt }
  else st

/-- A concrete host in its start configuration, used to instantiate witnesses;
mirrors `createHost()` from `app-gateway.node.test.ts`. -/
def hostStart : Host :=
  { connected := false
    lastError := none
    sessionKey := "main".data
    eventLogBuffer := []
    settings := { sessionKey := "main".data, lastActiveSessionKey := "main".data } }

/-- A concrete orchestrator state at generation 0 around `hostStart`. -/
def connStart : GatewayConn :=
  { host := hostStart, currentGeneration := 0 }

/-- A concrete host whose session key is the agent-qualified default, mirroring
the hello normalization scenario of `app-gateway.node.test.ts`. -/
def hostDenver : Host :=
  ⟨false, none, "agent:denver-move:main".data, [],
   ⟨"agent:denver-move:main".data, "agent:denver-move:main".data⟩⟩

/-- The hello message of that scenario: session defaults with
`defaultAgentId = "denver-move"` and `mainKey = "heartbeat"`. -/
def helloDenver : HelloMessage :=
  ⟨some ⟨some ⟨some "denver-move".data, some "heartbeat".data, none, none⟩⟩⟩

end OpenClaw

namespace OpenClaw

/-! ### Character-level lemmas about `Char.toLower` -/

theorem charToNat_inj {a b : Char} (h : a.toNat = b.toNat) : a = b := by
  have h2 := congrArg Char.ofNat h
  rwa [Char.ofNat_toNat, Char.ofNat_toNat] at h2

theorem charOfNat_toNat {n : Nat} (h : n < 55296) : (Char.ofNat n).toNat = n := by
  have hv : n.isValidChar := Or.inl h
  rw [Char.ofNat, dif_pos hv]
  rfl

theorem toLower_of_not_upper {c : Char} (h : ¬(65 ≤ c.toNat ∧ c.toNat ≤ 90)) :
    Char.toLower c = c := by
  unfold Char.toLower
  exact if_neg h

theorem toNat_toLower_of_upper {c : Char} (h : 65 ≤ c.toNat ∧ c.toNat ≤ 90) :
    (Char.toLower c).toNat = c.toNat + 32 := by
  unfold Char.toLower
  rw [if_pos h]
  exact charOfNat_toNat (by omega)

theorem toLower_toLower (c : Char) : (Char.toLower c).toLower = Char.toLower c := by
  by_cases hc : 65 ≤ c.toNat ∧ c.toNat ≤ 90
  · have h1 := toNat_toLower_of_upper hc
    exact toLower_of_not_upper (by omega)
  · have h1 := toLower_of_not_upper hc
    rw [h1]
    exact h1

theorem isWhitespace_iff (c : Char) :
    c.isWhitespace = true ↔ (c.toNat = 32 ∨ c.toNat = 9 ∨ c.toNat = 13 ∨ c.toNat = 10) := by
  unfold Char.isWhitespace
  simp only [Bool.or_eq_true, decide_eq_true_eq]
  constructor
  · rintro (((rfl | rfl) | rfl) | rfl) <;> simp
  · rintro (h | h | h | h)
    · exact Or.inl (Or.inl (Or.inl (charToNat_inj (by rw [h]; rfl))))
    · exact Or.inl (Or.inl (Or.inr (charToNat_inj (by rw [h]; rfl))))
    · exact Or.inl (Or.inr (charToNat_inj (by rw [h]; rfl)))
    · exact Or.inr (charToNat_inj (by rw [h]; rfl))

theorem isWhitespace_toLower (c : Char) :
    (Char.toLower c).isWhitespace = c.isWhitespace := by
  by_cases hc : 65 ≤ c.toNat ∧ c.toNat ≤ 90
  · have h1 := toNat_toLower_of_upper hc
    have h2 : c.isWhitespace = false := by
      cases hb : c.isWhitespace with
      | false => rfl
      | true => exact absurd ((isWhitespace_iff c).mp hb) (by omega)
    have h3 : (Char.toLower c).isWhitespace = false := by
      cases hb : (Char.toLower c).isWhitespace with
      | false => rfl
      | true => exact absurd ((isWhitespace_iff _).mp hb) (by omega)
    rw [h2, h3]
  · rw [toLower_of_not_upper hc]

theorem isWhitespace_comp_toLower :
    (Char.isWhitespace ∘ Char.toLower) = Char.isWhitespace :=
  funext fun c => isWhitespace_toLower c

/-! ### List-level lemmas about `lowerStr` and `trimStr` -/

theorem lowerStr_lowerStr (s : Str) : lowerStr (lowerStr s) = lowerStr s := by
  unfold lowerStr
  rw [List.map_map]
  congr 1
  funext c
  exact toLower_toLower c

theorem lowerStr_eq_nil_iff (s : Str) : lowerStr s = [] ↔ s = [] := by
  simp [lowerStr]

theorem lowerStr_append (a b : Str) : lowerStr (a ++ b) = lowerStr a ++ lowerStr b := by
  simp [lowerStr]

theorem dropWhile_ws_lowerStr (s : Str) :
    (lowerStr s).dropWhile Char.isWhitespace = lowerStr (s.dropWhile Char.isWhitespace) := by
  unfold lowerStr
  rw [List.dropWhile_map, isWhitespace_comp_toLower]

theorem rdropWhile_ws_lowerStr (s : Str) :
    List.rdropWhile Char.isWhitespace (lowerStr s) =
      lowerStr (List.rdropWhile Char.isWhitespace s) := by
  unfold List.rdropWhile lowerStr
  rw [← List.map_reverse, List.dropWhile_map, isWhitespace_comp_toLower, ← List.map_reverse]

theorem dropWhile_eq_self_of_isPre {p : Char → Bool} {t u : Str}
    (hu : u.dropWhile p = u) (hpre : t <+: u) : t.dropWhile p = t := by
  obtain ⟨s, rfl⟩ := hpre
  cases t with
  | nil => rfl
  | cons c cs =>
    rw [List.cons_append] at hu
    by_cases hc : p c = true
    · rw [List.dropWhile_cons_of_pos hc] at hu
      have hlen : ((cs ++ s).dropWhile p).length ≤ (cs ++ s).length :=
        List.Sublist.length_le (List.IsSuffix.sublist (List.dropWhile_suffix p))
      rw [hu] at hlen
      simp at hlen
    · exact List.dropWhile_cons_of_neg hc

theorem dropWhile_ws_trimStr (s : Str) :
    (trimStr s).dropWhile Char.isWhitespace = trimStr s := by
  unfold trimStr
  exact dropWhile_eq_self_of_isPre (List.dropWhile_idempotent _ _)
    ( List.rdropWhile_prefix _ _)

theorem rdropWhile_ws_trimStr (s : Str) :
    List.rdropWhile Char.isWhitespace (trimStr s) = trimStr s := by
  unfold trimStr
  exact List.rdropWhile_idempotent _ _

theorem trimStr_eq_self {s : Str} (h1 : s.dropWhile Char.isWhitespace = s)
    (h2 : List.rdropWhile Char.isWhitespace s = s) : trimStr s = s := by
  unfold trimStr
  rw [h1, h2]

theorem trimStr_trimStr (s : Str) : trimStr (trimStr s) = trimStr s :=
  trimStr_eq_self (dropWhile_ws_trimStr s) (rdropWhile_ws_trimStr s)

theorem trimStr_lowerStr_trimStr (s : Str) :
    trimStr (lowerStr (trimStr s)) = lowerStr (trimStr s) := by
  apply trimStr_eq_self
  · rw [dropWhile_ws_lowerStr, dropWhile_ws_trimStr]
  · rw [rdropWhile_ws_lowerStr, rdropWhile_ws_trimStr]

theorem dropWhile_ws_append_left {x y : Str}
    (hx : x.dropWhile Char.isWhitespace = x) (hxne : x ≠ []) :
    (x ++ y).dropWhile Char.isWhitespace = x ++ y := by
  rw [List.dropWhile_append, hx]
  rw [if_neg (by simp [hxne])]

theorem rdropWhile_ws_append_right {x y : Str}
    (hy : List.rdropWhile Char.isWhitespace y = y) (hyne : y ≠ []) :
    List.rdropWhile Char.isWhitespace (x ++ y) = x ++ y := by
  have hy' : (y.reverse).dropWhile Char.isWhitespace = y.reverse := by
    have h2 := congrArg List.reverse hy
    unfold List.rdropWhile at h2
    rw [List.reverse_reverse] at h2
    rw [h2]
  unfold List.rdropWhile
  rw [List.reverse_append, List.dropWhile_append, hy']
  rw [if_neg (by simp [hyne])]
  rw [List.reverse_append, List.reverse_reverse, List.reverse_reverse]

end OpenClaw

namespace OpenClaw

-- Sanity examples mirroring session-defaults.node.test.ts
example :
    resolveSnapshotMainSessionKey
      (some { defaultAgentId := some "denver-move".data, mainKey := some "heartbeat".data }) =
      some "agent:denver-move:heartbeat".data := by decide

example :
    resolveSnapshotMainSessionKey
      (some { defaultAgentId := some "denver-move".data, mainKey := some "heartbeat".data,
              mainSessionKey := some "agent:denver-move:main-chat".data }) =
      some "agent:denver-move:main-chat".data := by decide

example :
    resolveSnapshotMainSessionKey
      (some { defaultAgentId := some "denver-move".data, mainKey := some "heartbeat".data,
              scope := some "global".data }) =
      some "global".data := by decide

example : resolveSnapshotMainSessionKey none = none := by decide

example :
    isMainSessionAlias (some "main".data)
      (some { defaultAgentId := some "denver-move".data, mainKey := some "heartbeat".data }) =
      true := by decide

example :
    isMainSessionAlias (some "heartbeat".data)
      (some { defaultAgentId := some "denver-move".data, mainKey := some "heartbeat".data }) =
      true := by decide

example :
    isMainSessionAlias (some "agent:denver-move:main".data)
      (some { defaultAgentId := some "denver-move".data, mainKey := some "heartbeat".data }) =
      true := by decide

example :
    isMainSessionAlias (some "agent:denver-move:discord:group:dev".data)
      (some { defaultAgentId := some "denver-move".data, mainKey := some "heartbeat".data }) =
      false := by decide

end OpenClaw

namespace OpenClaw

/-! ### Properties of the modelled normalization collaborators -/

theorem normalizeMainKey_ne_nil (x : Option Str) : normalizeMainKey x ≠ [] := by
  unfold normalizeMainKey
  split
  · decide
  · next h => exact h

theorem normalizeAgentId_ne_nil (x : Option Str) : normalizeAgentId x ≠ [] := by
  unfold normalizeAgentId
  split
  · decide
  · next h => exact h

theorem lowerStr_normalizeMainKey (x : Option Str) :
    lowerStr (normalizeMainKey x) = normalizeMainKey x := by
  unfold normalizeMainKey
  split
  · decide
  · exact lowerStr_lowerStr _

theorem lowerStr_normalizeAgentId (x : Option Str) :
    lowerStr (normalizeAgentId x) = normalizeAgentId x := by
  unfold normalizeAgentId
  split
  · decide
  · exact lowerStr_lowerStr _

theorem rdropWhile_ws_normalizeMainKey (x : Option Str) :
    List.rdropWhile Char.isWhitespace (normalizeMainKey x) = normalizeMainKey x := by
  unfold normalizeMainKey
  split
  · decide
  · rw [rdropWhile_ws_lowerStr, rdropWhile_ws_trimStr]

/-! ### Shape of resolved canonical keys -/

theorem resolveWith_some (normA normM : Option Str → Str) (d : SessionDefaultsSnapshot) :
    resolveSnapshotMainSessionKeyWith normA normM (some d) =
      (if trimStr (d.mainSessionKey.getD []) ≠ [] then
        some (trimStr (d.mainSessionKey.getD []))
      else if normalizeScope d.scope = "global".data then
        some "global".data
      else
        some ("agent:".data ++ normA d.defaultAgentId ++ ":".data ++ normM d.mainKey)) := rfl

theorem resolve_shape (normA normM : Option Str → Str) (d : SessionDefaultsSnapshot) (K : Str)
    (h : resolveSnapshotMainSessionKeyWith normA normM (some d) = some K) :
    (K = trimStr (d.mainSessionKey.getD []) ∧ trimStr (d.mainSessionKey.getD []) ≠ []) ∨
    K = "global".data ∨
    K = "agent:".data ++ normA d.defaultAgentId ++ ":".data ++ normM d.mainKey := by
  rw [resolveWith_some] at h
  split at h
  · next h1 => exact Or.inl ⟨(Option.some.inj h).symm, h1⟩
  · split at h
    · exact Or.inr (Or.inl (Option.some.inj h).symm)
    · exact Or.inr (Or.inr (Option.some.inj h).symm)

theorem trimStr_agent_append {m : Str} (a : Str)
    (hm : List.rdropWhile Char.isWhitespace m = m) (hmne : m ≠ []) :
    trimStr ("agent:".data ++ a ++ ":".data ++ m) =
      "agent:".data ++ a ++ ":".data ++ m := by
  apply trimStr_eq_self
  · rw [List.append_assoc, List.append_assoc]
    exact dropWhile_ws_append_left (by decide) (by decide)
  · exact rdropWhile_ws_append_right hm hmne

theorem agent_append_ne_nil (a m : Str) :
    "agent:".data ++ a ++ ":".data ++ m ≠ [] := by
  simp

theorem resolve_key_trimmed (d : SessionDefaultsSnapshot) (K : Str)
    (h : resolveSnapshotMainSessionKey (some d) = some K) :
    trimStr K = K ∧ K ≠ [] := by
  have hs := resolve_shape normalizeAgentId normalizeMainKey d K h
  rcases hs with ⟨rfl, hne⟩ | rfl | rfl
  · exact ⟨trimStr_trimStr _, hne⟩
  · exact ⟨by decide, by decide⟩
  · exact ⟨trimStr_agent_append _ (rdropWhile_ws_normalizeMainKey _)
      (normalizeMainKey_ne_nil _), agent_append_ne_nil _ _⟩

end OpenClaw

namespace OpenClaw

/-! ### Claims about the session-key resolver -/

/-- C2 (counterexample): the resolver does not return `defaults.mainSessionKey`
verbatim when the field carries surrounding whitespace: for
`mainSessionKey = " x "` (non-empty after trim) the result is the trimmed
string `"x"`, not the original `" x "`. -/
theorem claim_C2_counterexample :
    trimStr " x ".data ≠ [] ∧
    resolveSnapshotMainSessionKey (some ⟨none, none, some " x ".data, none⟩) =
      some "x".data ∧
    ¬ resolveSnapshotMainSessionKey (some ⟨none, none, some " x ".data, none⟩) =
      some " x ".data :=
  ⟨by decide, by decide, by decide⟩

/-- C2 (amended): for every snapshot whose `mainSessionKey` is non-empty after
trimming, the resolver returns the trimmed `mainSessionKey` (hence the original
string verbatim exactly when it carries no surrounding whitespace), regardless
of `scope`, `defaultAgentId`, `mainKey` and the normalization collaborators. -/
theorem claim_C2_amended (normA normM : Option Str → Str)
    (d : SessionDefaultsSnapshot) (s : Str)
    (h1 : d.mainSessionKey = some s) (h2 : trimStr s ≠ []) :
    resolveSnapshotMainSessionKeyWith normA normM (some d) = some (trimStr s) := by
  rw [resolveWith_some, h1]
  simp [h2]

theorem claim_C2_amended_witness :
    resolveSnapshotMainSessionKeyWith normalizeAgentId normalizeMainKey
        (some ⟨none, none, some " x ".data, none⟩) = some (trimStr " x ".data) :=
  claim_C2_amended normalizeAgentId normalizeMainKey
    ⟨none, none, some " x ".data, none⟩ " x ".data rfl (by decide)

/-- C4: for every snapshot whose `mainSessionKey` is absent or blank after
trimming, the resolver returns `"global"` when the trimmed, lowercased `scope`
equals `"global"`, and otherwise returns
`"agent:" ++ normalizeAgentId defaultAgentId ++ ":" ++ normalizeMainKey mainKey`,
with the two normalizers treated as uninterpreted collaborators. -/
theorem claim_C4 (normA normM : Option Str → Str) (d : SessionDefaultsSnapshot)
    (h : trimStr (d.mainSessionKey.getD []) = []) :
    resolveSnapshotMainSessionKeyWith normA normM (some d) =
      (if lowerStr (trimStr (d.scope.getD [])) = "global".data then
        some "global".data
      else
        some ("agent:".data ++ normA d.defaultAgentId ++ ":".data ++ normM d.mainKey)) := by
  rw [resolveWith_some]
  rw [if_neg (by simp [h])]
  rfl

theorem claim_C4_witness :
    resolveSnapshotMainSessionKeyWith normalizeAgentId normalizeMainKey
        (some ⟨none, none, none, some "global".data⟩) =
      (if lowerStr (trimStr ((some "global".data : Option Str).getD [])) = "global".data then
        some "global".data
      else
        some ("agent:".data ++ normalizeAgentId none ++ ":".data ++ normalizeMainKey none)) :=
  claim_C4 normalizeAgentId normalizeMainKey ⟨none, none, none, some "global".data⟩ (by decide)

/-- C7: reflexivity of aliasing — whenever the resolver yields a canonical key,
that very key is accepted as an alias of itself. -/
theorem claim_C7 (defaults : Option SessionDefaultsSnapshot) (K : Str)
    (h : resolveSnapshotMainSessionKey defaults = some K) :
    isMainSessionAlias (some K) defaults = true := by
  cases defaults with
  | none => simp [resolveSnapshotMainSessionKey, resolveSnapshotMainSessionKeyWith] at h
  | some d =>
    obtain ⟨htrim, hne⟩ := resolve_key_trimmed d K h
    have h' : resolveSnapshotMainSessionKeyWith normalizeAgentId normalizeMainKey (some d) =
        some K := h
    unfold isMainSessionAlias isMainSessionAliasWith
    simp only [Option.getD_some]
    rw [htrim, if_neg hne, h']
    simp [mainSessionAliasTail]

theorem claim_C7_witness :
    isMainSessionAlias (some "agent:main:main".data) (some ⟨none, none, none, none⟩) = true :=
  claim_C7 (some ⟨none, none, none, none⟩) "agent:main:main".data (by decide)

/-- C8: the resolver signals absence through return values: resolving a missing
snapshot (JS `null` or `undefined`, both modelled as `none`) yields `null`, and
the alias test yields `false` when the value trims to the empty string or the
canonical key resolves to `null`; both functions are total Lean functions, so
neither can throw. -/
theorem claim_C8 :
    (∀ normA normM : Option Str → Str,
      resolveSnapshotMainSessionKeyWith normA normM none = none) ∧
    (∀ (normA normM : Option Str → Str) value defaults,
      trimStr (value.getD []) = [] →
      isMainSessionAliasWith normA normM value defaults = false) ∧
    (∀ (normA normM : Option Str → Str) value defaults,
      resolveSnapshotMainSessionKeyWith normA normM defaults = none →
      isMainSessionAliasWith normA normM value defaults = false) := by
  refine ⟨fun _ _ => rfl, ?_, ?_⟩
  · intro normA normM value defaults h
    unfold isMainSessionAliasWith
    simp [h]
  · intro normA normM value defaults h
    unfold isMainSessionAliasWith
    simp only [h]
    split
    · rfl
    · rfl

theorem claim_C8_witness :
    isMainSessionAliasWith normalizeAgentId normalizeMainKey (some "  ".data) none = false ∧
    isMainSessionAliasWith normalizeAgentId normalizeMainKey (some "x".data) none = false :=
  ⟨claim_C8.2.1 normalizeAgentId normalizeMainKey (some "  ".data) none (by decide),
   claim_C8.2.2 normalizeAgentId normalizeMainKey (some "x".data) none rfl⟩

/-- C10: under the hypothesis that both normalization collaborators always
return non-empty strings, every non-null result of the resolver is a non-empty
string. -/
theorem claim_C10 (normA normM : Option Str → Str)
    (_hA : ∀ x, normA x ≠ []) (_hM : ∀ x, normM x ≠ [])
    (defaults : Option SessionDefaultsSnapshot) (K : Str)
    (h : resolveSnapshotMainSessionKeyWith normA normM defaults = some K) : K ≠ [] := by
  cases defaults with
  | none => exact absurd h (by simp [resolveSnapshotMainSessionKeyWith])
  | some d =>
    rcases resolve_shape normA normM d K h with ⟨rfl, hne⟩ | rfl | rfl
    · exact hne
    · decide
    · exact agent_append_ne_nil _ _

theorem claim_C10_witness :
    "agent:main:main".data ≠ ([] : Str) :=
  claim_C10 normalizeAgentId normalizeMainKey normalizeAgentId_ne_nil normalizeMainKey_ne_nil
    (some ⟨none, none, none, none⟩) "agent:main:main".data (by decide)

end OpenClaw

namespace OpenClaw

/-! ### Claims about the reconnect orchestrator -/

/-- C1: after two sequential `connectGateway` calls, each of the four callbacks
fired with the first (superseded) client's generation leaves every field of the
host unchanged, while the same callback fired with the second (current)
client's generation mutates the host exactly as specified for that callback. -/
theorem claim_C1 (st st1 st2 : GatewayConn) (g1 g2 : Nat)
    (h1 : connectGateway st = (st1, g1)) (h2 : connectGateway st1 = (st2, g2))
    (hello : HelloMessage) (code : Nat) (reason : Str)
    (expected received : Nat) (evt : EventEnvelope) :
    ((fireHello st2 g1 hello).host = st2.host ∧
     (fireClose st2 g1 code reason).host = st2.host ∧
     (fireGap st2 g1 expected received).host = st2.host ∧
     (fireEvent st2 g1 evt).host = st2.host) ∧
    ((fireHello st2 g2 hello).host = applyHello st2.host hello ∧
     (fireClose st2 g2 code reason).host = applyClose st2.host code reason ∧
     (fireGap st2 g2 expected received).host = applyGap st2.host expected received ∧
     (fireEvent st2 g2 evt).host = applyEvent st2.host evt) := by
  unfold connectGateway at h1 h2
  injection h1 with ha hb
  injection h2 with hc hd
  subst ha
  subst hb
  subst hc
  subst hd
  refine ⟨⟨?_, ?_, ?_, ?_⟩, ?_, ?_, ?_, ?_⟩ <;>
    simp [fireHello, fireClose, fireGap, fireEvent]

theorem claim_C1_witness :
    ((fireHello ⟨hostStart, 2⟩ 1 ⟨none⟩).host = hostStart ∧
     (fireClose ⟨hostStart, 2⟩ 1 1005 []).host = hostStart ∧
     (fireGap ⟨hostStart, 2⟩ 1 10 13).host = hostStart ∧
     (fireEvent ⟨hostStart, 2⟩ 1 ⟨"presence".data, none, none⟩).host = hostStart) ∧
    ((fireHello ⟨hostStart, 2⟩ 2 ⟨none⟩).host = applyHello hostStart ⟨none⟩ ∧
     (fireClose ⟨hostStart, 2⟩ 2 1005 []).host = applyClose hostStart 1005 [] ∧
     (fireGap ⟨hostStart, 2⟩ 2 10 13).host = applyGap hostStart 10 13 ∧
     (fireEvent ⟨hostStart, 2⟩ 2 ⟨"presence".data, none, none⟩).host =
       applyEvent hostStart ⟨"presence".data, none, none⟩) :=
  claim_C1 connStart ⟨hostStart, 1⟩ ⟨hostStart, 2⟩ 1 2 rfl rfl
    ⟨none⟩ 1005 [] 10 13 ⟨"presence".data, none, none⟩

/-- C5: a gap delivered to the currently active generation sets `lastError` to
exactly `"event gap detected (expected seq {expected}, got {received}); refresh
recommended"`, and a close delivered to the currently active generation sets it
to exactly `"disconnected ({code}): {reason}"` with the reason substituted by
`"no reason"` when it is empty (an absent reason reaches the handler as the
empty string). -/
theorem claim_C5 (st : GatewayConn) (expected received code : Nat) (reason : Str) :
    (fireGap st st.currentGeneration expected received).host.lastError =
      some ("event gap detected (expected seq ".data ++ (Nat.repr expected).data ++
        ", got ".data ++ (Nat.repr received).data ++ "); refresh recommended".data) ∧
    (fireClose st st.currentGeneration code reason).host.lastError =
      some ("disconnected (".data ++ (Nat.repr code).data ++ "): ".data ++
        (if reason = [] then "no reason".data else reason)) := by
  constructor
  · simp [fireGap, applyGap, gapMessage]
  · simp [fireClose, applyClose, closeMessage]

/-- C6: a hello delivered to the currently active generation sets
`host.connected` to `true`; and when the hello carries session defaults whose
resolved canonical key differs from `host.sessionKey`, the handler updates
`host.sessionKey`, `host.settings.sessionKey` and
`host.settings.lastActiveSessionKey` to the resolved key. -/
theorem claim_C6 (st : GatewayConn) (hello : HelloMessage) :
    (fireHello st st.currentGeneration hello).host.connected = true ∧
    (∀ d K, hello.snapshot.bind (fun s => s.sessionDefaults) = some d →
      resolveSnapshotMainSessionKey (some d) = some K →
      K ≠ st.host.sessionKey →
      ((fireHello st st.currentGeneration hello).host.sessionKey = K ∧
       (fireHello st st.currentGeneration hello).host.settings.sessionKey = K ∧
       (fireHello st st.currentGeneration hello).host.settings.lastActiveSessionKey = K)) := by
  have hfire : fireHello st st.currentGeneration hello =
      { st with host := applyHello st.host hello } := by
    unfold fireHello
    rw [if_pos rfl]
  rw [hfire]
  constructor
  · unfold applyHello
    cases hello.snapshot.bind (fun s => s.sessionDefaults) with
    | none => rfl
    | some d =>
      dsimp only
      cases resolveSnapshotMainSessionKey (some d) with
      | none => rfl
      | some k =>
        dsimp only
        by_cases hk : k ≠ st.host.sessionKey
        · rw [if_pos hk]
        · rw [if_neg hk]
  · intro d K hd hK hne
    unfold applyHello
    rw [hd]
    dsimp only
    rw [hK]
    dsimp only
    rw [if_pos hne]
    exact ⟨rfl, rfl, rfl⟩

theorem claim_C6_witness :
    (fireHello ⟨hostDenver, 0⟩ 0 helloDenver).host.connected = true ∧
    ((fireHello ⟨hostDenver, 0⟩ 0 helloDenver).host.sessionKey =
       "agent:denver-move:heartbeat".data ∧
     (fireHello ⟨hostDenver, 0⟩ 0 helloDenver).host.settings.sessionKey =
       "agent:denver-move:heartbeat".data ∧
     (fireHello ⟨hostDenver, 0⟩ 0 helloDenver).host.settings.lastActiveSessionKey =
       "agent:denver-move:heartbeat".data) :=
  ⟨(claim_C6 ⟨hostDenver, 0⟩ helloDenver).1,
   (claim_C6 ⟨hostDenver, 0⟩ helloDenver).2
     ⟨some "denver-move".data, some "heartbeat".data, none, none⟩
     "agent:denver-move:heartbeat".data (by decide) (by decide) (by decide)⟩

end OpenClaw

namespace OpenClaw

/-! ### Alias characterization and invariance -/

theorem append_ne_nil_left {x : Str} (y : Str) (hx : x ≠ []) : x ++ y ≠ [] :=
  fun h => hx (List.append_eq_nil.mp h).1

/-- C9: the alias test is invariant under trimming and lowercasing of its first
argument, for any choice of the normalization collaborators. -/
theorem claim_C9 (normA normM : Option Str → Str) (value : Str)
    (defaults : Option SessionDefaultsSnapshot) :
    isMainSessionAliasWith normA normM (some value) defaults =
      isMainSessionAliasWith normA normM (some (lowerStr (trimStr value))) defaults := by
  unfold isMainSessionAliasWith
  simp only [Option.getD_some]
  rw [trimStr_lowerStr_trimStr]
  by_cases h : trimStr value = []
  · rw [h]
    rfl
  · rw [if_neg h, if_neg (fun hh => h ((lowerStr_eq_nil_iff _).mp hh))]
    cases resolveSnapshotMainSessionKeyWith normA normM defaults with
    | none => rfl
    | some K =>
      dsimp only
      rw [lowerStr_lowerStr]

/-- C3: full characterization of `isMainSessionAlias` in terms of the resolved
canonical key `K`: when `K` lowercases to `"global"` only `"global"` matches
(case-insensitively, after trimming); otherwise exactly the canonical key, the
literal `"main"`, the normalized configured main key, and the two
agent-qualified spellings match, and nothing else. -/
theorem claim_C3 (value : Str) (d : SessionDefaultsSnapshot) (K : Str)
    (h : resolveSnapshotMainSessionKey (some d) = some K) :
    (isMainSessionAlias (some value) (some d) = true ↔
      (if lowerStr K = "global".data then
        lowerStr (trimStr value) = "global".data
      else
        (lowerStr (trimStr value) = lowerStr K ∨
         lowerStr (trimStr value) = lowerStr "main".data ∨
         lowerStr (trimStr value) = lowerStr (normalizeMainKey d.mainKey) ∨
         lowerStr (trimStr value) =
           lowerStr ("agent:".data ++ normalizeAgentId d.defaultAgentId ++ ":main".data) ∨
         lowerStr (trimStr value) =
           lowerStr ("agent:".data ++ normalizeAgentId d.defaultAgentId ++ ":".data ++
             normalizeMainKey d.mainKey)))) := by
  have hKne : K ≠ [] := (resolve_key_trimmed d K h).2
  have h' : resolveSnapshotMainSessionKeyWith normalizeAgentId normalizeMainKey (some d) =
      some K := h
  have haL : lowerStr (normalizeAgentId d.defaultAgentId) = normalizeAgentId d.defaultAgentId :=
    lowerStr_normalizeAgentId _
  have hmkL : lowerStr (normalizeMainKey d.mainKey) = normalizeMainKey d.mainKey :=
    lowerStr_normalizeMainKey _
  have hmain : lowerStr "main".data = "main".data := by decide
  have hag1 : lowerStr ("agent:".data ++ normalizeAgentId d.defaultAgentId ++ ":main".data) =
      "agent:".data ++ normalizeAgentId d.defaultAgentId ++ ":main".data := by
    rw [lowerStr_append, lowerStr_append, haL]
    rw [show lowerStr "agent:".data = "agent:".data from by decide]
    rw [show lowerStr ":main".data = ":main".data from by decide]
  have hag2 : lowerStr ("agent:".data ++ normalizeAgentId d.defaultAgentId ++ ":".data ++
        normalizeMainKey d.mainKey) =
      "agent:".data ++ normalizeAgentId d.defaultAgentId ++ ":".data ++
        normalizeMainKey d.mainKey := by
    rw [lowerStr_append, lowerStr_append, lowerStr_append, haL, hmkL]
    rw [show lowerStr "agent:".data = "agent:".data from by decide]
    rw [show lowerStr ":".data = ":".data from by decide]
  unfold isMainSessionAlias isMainSessionAliasWith
  simp only [Option.getD_some]
  rw [h']
  by_cases hraw : trimStr value = []
  · rw [if_pos hraw]
    have hnr : lowerStr (trimStr value) = [] := by
      rw [hraw]
      rfl
    rw [hnr]
    apply iff_of_false (by simp)
    by_cases hg : lowerStr K = "global".data
    · rw [if_pos hg]
      decide
    · rw [if_neg hg]
      rintro (h1 | h1 | h1 | h1 | h1)
      · exact hKne ((lowerStr_eq_nil_iff K).mp h1.symm)
      · exact absurd h1.symm (by decide)
      · rw [hmkL] at h1
        exact normalizeMainKey_ne_nil _ h1.symm
      · rw [hag1] at h1
        exact append_ne_nil_left _ (append_ne_nil_left _ (by decide)) h1.symm
      · rw [hag2] at h1
        exact agent_append_ne_nil _ _ h1.symm
  · rw [if_neg hraw]
    dsimp only
    unfold mainSessionAliasTail
    by_cases h1 : lowerStr (trimStr value) = lowerStr K
    · rw [if_pos h1]
      by_cases hg : lowerStr K = "global".data
      · rw [if_pos hg]
        simp [h1.trans hg]
      · rw [if_neg hg]
        simp [h1]
    · rw [if_neg h1]
      by_cases hg : lowerStr K = "global".data
      · rw [if_pos hg, if_pos hg]
        have hng : lowerStr (trimStr value) ≠ "global".data := fun hh => h1 (hh.trans hg.symm)
        simp [hng]
      · rw [if_neg hg, if_neg hg]
        simp only [Option.some_bind]
        rw [hmain, hmkL, hag1, hag2]
        simp only [Bool.or_eq_true, decide_eq_true_eq]
        constructor
        · rintro (((hA | hB) | hC) | hD)
          · exact Or.inr (Or.inl hA)
          · exact Or.inr (Or.inr (Or.inl hB))
          · exact Or.inr (Or.inr (Or.inr (Or.inl hC)))
          · exact Or.inr (Or.inr (Or.inr (Or.inr hD)))
        · rintro (hE | hA | hB | hC | hD)
          · exact absurd hE h1
          · exact Or.inl (Or.inl (Or.inl hA))
          · exact Or.inl (Or.inl (Or.inr hB))
          · exact Or.inl (Or.inr hC)
          · exact Or.inr hD

theorem claim_C3_witness :
    (isMainSessionAlias (some "HeartBeat".data)
        (some ⟨some "denver-move".data, some "heartbeat".data, none, none⟩) = true ↔
      (if lowerStr "agent:denver-move:heartbeat".data = "global".data then
        lowerStr (trimStr "HeartBeat".data) = "global".data
      else
        (lowerStr (trimStr "HeartBeat".data) = lowerStr "agent:denver-move:heartbeat".data ∨
         lowerStr (trimStr "HeartBeat".data) = lowerStr "main".data ∨
         lowerStr (trimStr "HeartBeat".data) =
           lowerStr (normalizeMainKey (some "heartbeat".data)) ∨
         lowerStr (trimStr "HeartBeat".data) =
           lowerStr ("agent:".data ++ normalizeAgentId (some "denver-move".data) ++
             ":main".data) ∨
         lowerStr (trimStr "HeartBeat".data) =
           lowerStr ("agent:".data ++ normalizeAgentId (some "denver-move".data) ++
             ":".data ++ normalizeMainKey (some "heartbeat".data))))) :=
  claim_C3 "HeartBeat".data ⟨some "denver-move".data, some "heartbeat".data, none, none⟩
    "agent:denver-move:heartbeat".data (by decide)


end OpenClaw
